import Mathlib

/-!
Verification of the portfolio backend (FastAPI app in `main.py` with Pydantic
schemas in `schemas.py`).

The document store adapter (`database.py`: `db`, `create_document`,
`get_documents`) is imported by `main.py` but is not part of the provided
sources; its behaviour is modelled from the specification (§4.1 Document Store
Adapter).  Everything else is a direct shallow embedding of the Python source.

Conventions of the embedding:
* A BSON/JSON document is an association list of field name to value (`Doc`).
* Exceptions raised by the store are modelled with `Except String`; an
  `Except.error` escaping a handler models an exception that the handler did
  not catch.  `HTTPException(status_code=500, detail=...)` raised and caught
  by FastAPI is modelled as a structured error constructor of the handler's
  result type.
* Pydantic validation of a request body or of a stored document is an
  executable function `Doc → Option Model`; `none` models a raised
  `ValidationError` (a 422 response for request bodies, an uncaught exception
  when it happens inside a handler).
-/

/-- A JSON/BSON value, as far as this application distinguishes them. -/
inductive Val where
  | str (s : String)
  | null
  | arr (xs : List Val)
  | obj (fields : List (String × Val))
  deriving Repr

/-- A document: an association list of field names to values (keys unique). -/
abbrev Doc := List (String × Val)

/-- Field lookup in a document (first binding wins, as in a dict). -/
def Doc.find (d : Doc) (k : String) : Option Val :=
  match d with
  | [] => none
  | (k', v) :: rest => if k' = k then some v else Doc.find rest k

/-- `doc.pop("_id", None)`: remove the store-internal identifier field.
Document keys are unique, so removing every binding equals removing one. -/
def eraseId (d : Doc) : Doc :=
  d.filter (fun kv => kv.1 ≠ "_id")

/-- Model of Pydantic `EmailStr` syntax validation (the `email-validator`
package is outside the sources): exactly one `@`, a non-empty local part, a
domain containing a dot that is neither leading nor trailing, and no
spaces. -/
def isValidEmail (s : String) : Bool :=
  let cs := s.toList
  let lp := cs.takeWhile (fun c => c ≠ '@')
  match cs.dropWhile (fun c => c ≠ '@') with
  | '@' :: dom =>
      !lp.isEmpty && !dom.isEmpty && !dom.contains '@' && dom.contains '.' &&
      dom.head? ≠ some '.' && dom.getLast? ≠ some '.' && !cs.contains ' '
  | _ => false

/-- Model of Pydantic `HttpUrl` syntax validation: an http(s) scheme followed
by a non-empty remainder. -/
def isHttpUrl (s : String) : Bool :=
  let cs := s.toList
  (cs.take 7 = "http://".toList && cs.length > 7) ||
  (cs.take 8 = "https://".toList && cs.length > 8)

/-- `ContactMessage` (schemas.py): name, email (`EmailStr`), message with
`min_length=3, max_length=5000`. -/
structure ContactMessage where
  name : String
  email : String
  message : String
  deriving Repr, DecidableEq

/-- Pydantic validation of a request body against `ContactMessage` (also the
body validation FastAPI performs for the `ContactIn` subclass in `main.py`):
all three fields required, `email` must be syntactically valid, `message`
length between 3 and 5000 characters. -/
def parseContactMessage (d : Doc) : Option ContactMessage :=
  match d.find "name", d.find "email", d.find "message" with
  | some (Val.str n), some (Val.str e), some (Val.str m) =>
      if isValidEmail e && 3 ≤ m.length && m.length ≤ 5000 then
        some { name := n, email := e, message := m }
      else
        none
  | _, _, _ => none

/-- Serialization of a validated `ContactMessage` back to a document (the
shape the store adapter persists). -/
def ContactMessage.toDoc (m : ContactMessage) : Doc :=
  [("name", Val.str m.name), ("email", Val.str m.email),
   ("message", Val.str m.message)]

/-- The default for the `socials` field of `PortfolioProfile`
(`default_factory` in schemas.py). -/
def defaultSocials : List (String × Option String) :=
  [("github", none), ("twitter", none), ("linkedin", none), ("website", none)]

/-- `PortfolioProfile` (schemas.py): required `name`, `role`, `bio`; optional
`location`, `avatar`; `socials` map and `skills` list with defaults. -/
structure PortfolioProfile where
  name : String
  role : String
  bio : String
  location : Option String := none
  avatar : Option String := none
  socials : List (String × Option String) := defaultSocials
  skills : List String := []
  deriving Repr, DecidableEq

/-- `PortfolioProject` (schemas.py): required `title`, `description`;
optional `image`, `url`, `repo`; `tags` list defaulting to `[]`. -/
structure PortfolioProject where
  title : String
  description : String
  image : Option String := none
  tags : List String := []
  url : Option String := none
  repo : Option String := none
  deriving Repr, DecidableEq

/-- Validation of an optional plain-string field (`Optional[str]`): absent or
null becomes `none`, a string is kept, anything else fails. -/
def asOptStr (v : Option Val) : Option (Option String) :=
  match v with
  | none => some none
  | some Val.null => some none
  | some (Val.str s) => some (some s)
  | some _ => none

/-- Validation of an optional URL field (`Optional[HttpUrl]`). -/
def asOptUrl (v : Option Val) : Option (Option String) :=
  match v with
  | none => some none
  | some Val.null => some none
  | some (Val.str s) => if isHttpUrl s then some (some s) else none
  | some _ => none

/-- Validation of a list-of-strings field with default `[]`. -/
def asStrList (v : Option Val) : Option (List String) :=
  match v with
  | none => some []
  | some (Val.arr xs) =>
      xs.foldr (fun x acc =>
        match x, acc with
        | Val.str s, some ss => some (s :: ss)
        | _, _ => none) (some [])
  | some _ => none

/-- Validation of the `socials` field (`Dict[str, Optional[str]]` with a
default mapping). -/
def asSocials (v : Option Val) : Option (List (String × Option String)) :=
  match v with
  | none => some defaultSocials
  | some (Val.obj kvs) =>
      kvs.foldr (fun kv acc =>
        match kv.2, acc with
        | Val.str s, some ss => some ((kv.1, some s) :: ss)
        | Val.null, some ss => some ((kv.1, none) :: ss)
        | _, _ => none) (some [])
  | some _ => none

/-- Pydantic validation of a document against `PortfolioProfile`
(`PortfolioProfile(**doc)` in the handlers): `name`, `role`, `bio` required
strings, the rest optional with defaults.  `none` models a raised
`ValidationError`. -/
def validatePortfolioProfile (d : Doc) : Option PortfolioProfile :=
  match d.find "name", d.find "role", d.find "bio" with
  | some (Val.str n), some (Val.str r), some (Val.str b) =>
      match asOptStr (d.find "location"), asOptUrl (d.find "avatar"),
            asSocials (d.find "socials"), asStrList (d.find "skills") with
      | some loc, some av, some soc, some sk =>
          some { name := n, role := r, bio := b, location := loc,
                 avatar := av, socials := soc, skills := sk }
      | _, _, _, _ => none
  | _, _, _ => none

/-- Pydantic validation of a document against `PortfolioProject`
(`PortfolioProject(**doc)` in the handlers). -/
def validatePortfolioProject (d : Doc) : Option PortfolioProject :=
  match d.find "title", d.find "description" with
  | some (Val.str t), some (Val.str ds) =>
      match asOptStr (d.find "image"), asStrList (d.find "tags"),
            asOptUrl (d.find "url"), asOptUrl (d.find "repo") with
      | some im, some tg, some u, some rp =>
          some { title := t, description := ds, image := im, tags := tg,
                 url := u, repo := rp }
      | _, _, _, _ => none
  | _, _ => none

/-- FastAPI serialization of a `PortfolioProfile` response (the model has no
storage identifier field, so none can appear in the response). -/
def PortfolioProfile.toDoc (p : PortfolioProfile) : Doc :=
  [("name", Val.str p.name), ("role", Val.str p.role), ("bio", Val.str p.bio),
   ("location", (p.location.map Val.str).getD Val.null),
   ("avatar", (p.avatar.map Val.str).getD Val.null),
   ("socials", Val.obj (p.socials.map
      (fun kv => (kv.1, (kv.2.map Val.str).getD Val.null)))),
   ("skills", Val.arr (p.skills.map Val.str))]

/-- FastAPI serialization of a `PortfolioProject` response. -/
def PortfolioProject.toDoc (p : PortfolioProject) : Doc :=
  [("title", Val.str p.title), ("description", Val.str p.description),
   ("image", (p.image.map Val.str).getD Val.null),
   ("tags", Val.arr (p.tags.map Val.str)),
   ("url", (p.url.map Val.str).getD Val.null),
   ("repo", (p.repo.map Val.str).getD Val.null)]

/-- Modelled from the spec: the state of the document database behind the
missing `database.py`.  The three collections used by the application are the
stored documents in storage order; `nextId` drives identifier generation;
`failing` models a store whose operations currently raise (connection
unavailable or operations rejected, spec §4.1 and §7). -/
structure DB where
  portfolioprofile : List Doc
  portfolioproject : List Doc
  contactmessage : List Doc
  nextId : Nat
  failing : Bool
  deriving Repr

/-- Read a collection of the database state by name. -/
def DB.coll (db : DB) (c : String) : List Doc :=
  if c = "portfolioprofile" then db.portfolioprofile
  else if c = "portfolioproject" then db.portfolioproject
  else if c = "contactmessage" then db.contactmessage
  else []

/-- Append a document to a collection of the database state. -/
def DB.insert (db : DB) (c : String) (d : Doc) : DB :=
  if c = "portfolioprofile" then
    { db with portfolioprofile := db.portfolioprofile ++ [d] }
  else if c = "portfolioproject" then
    { db with portfolioproject := db.portfolioproject ++ [d] }
  else if c = "contactmessage" then
    { db with contactmessage := db.contactmessage ++ [d] }
  else db

/-- Modelled from the spec: `create_document` of the missing `database.py`
(§4.1 `create(collection_name, record) -> identifier`): inserts a new
document and returns its generated identifier as a string; fails when the
store is unavailable or the write is rejected.  The stored document carries
the generated `_id`, as the backend adds one. -/
def create_document (c : String) (d : Doc) (db : DB) :
    Except String (String × DB) :=
  if db.failing then Except.error "store failure"
  else
    let id := "oid" ++ toString db.nextId
    Except.ok (id, { db.insert c (("_id", Val.str id) :: d) with
                       nextId := db.nextId + 1 })

/-- Modelled from the spec: `get_documents` of the missing `database.py`
(§4.1 `list(collection_name, limit=None)`): returns up to `limit` documents
in storage order; a read rejected by the backend raises (§7c). -/
def get_documents (c : String) (limit : Option Nat) (db : DB) :
    Except String (List Doc) :=
  if db.failing then Except.error "store failure"
  else
    match limit with
    | none => Except.ok (db.coll c)
    | some n => Except.ok ((db.coll c).take n)

/-- Modelled from the spec: `db[collection].count_documents({})` (§4.1
`count(collection_name, filter) -> integer`); raises when the store is
unavailable. -/
def count_documents (c : String) (db : DB) : Except String Nat :=
  if db.failing then Except.error "store failure"
  else Except.ok (db.coll c).length

/-- Result of `POST /api/contact` as seen on the wire: success payload
`{ok: true, id}`, a 422 validation error produced by FastAPI before the
handler runs, or the structured `HTTPException(500)` raised by the handler. -/
inductive ContactResult where
  | ok (id : String)
  | clientError
  | serverError (detail : String)
  deriving Repr, DecidableEq

/-- `POST /api/contact` (`submit_contact` in main.py, including the body
validation FastAPI performs first): validate the body as `ContactIn`
(= `ContactMessage`); on success `create_document("contactmessage", payload)`
and return `{ok: True, id}`; a store exception is caught and re-raised as
`HTTPException(500)`. -/
def submit_contact (body : Doc) (db : DB) : ContactResult × DB :=
  match parseContactMessage body with
  | none => (ContactResult.clientError, db)
  | some m =>
      match create_document "contactmessage" m.toDoc db with
      | Except.error e => (ContactResult.serverError e, db)
      | Except.ok (id, db') => (ContactResult.ok id, db')

/-- The demo profile document inserted by `POST /api/seed` (main.py). -/
def seedProfileDoc : Doc :=
  [("name", Val.str "Legas Yasin"),
   ("role", Val.str "Web Developer"),
   ("bio", Val.str "I build vibrant, modern, and high-performance web experiences."),
   ("location", Val.str "Addis Ababa, Ethiopia"),
   ("avatar", Val.null),
   ("socials", Val.obj
      [("github", Val.str "https://github.com/"),
       ("twitter", Val.null),
       ("linkedin", Val.str "https://www.linkedin.com/"),
       ("website", Val.str "https://example.com")]),
   ("skills", Val.arr
      [Val.str "React", Val.str "Tailwind CSS", Val.str "Framer Motion",
       Val.str "FastAPI", Val.str "MongoDB"])]

/-- The three demo project documents inserted by `POST /api/seed` (main.py). -/
def seedProjectDocs : List Doc :=
  [[("title", Val.str "ColorSplash Landing"),
    ("description", Val.str "Vibrant landing page with animated gradients and responsive design."),
    ("image", Val.str "/images/project-1.jpg"),
    ("tags", Val.arr [Val.str "React", Val.str "Tailwind"]),
    ("url", Val.null), ("repo", Val.null)],
   [("title", Val.str "Portfolio Grid"),
    ("description", Val.str "Masonry grid of projects with smooth hover effects and modals."),
    ("image", Val.str "/images/project-2.jpg"),
    ("tags", Val.arr [Val.str "React", Val.str "Framer Motion"]),
    ("url", Val.null), ("repo", Val.null)],
   [("title", Val.str "API Dashboard"),
    ("description", Val.str "Clean dashboard consuming REST APIs with reusable components."),
    ("image", Val.str "/images/project-3.jpg"),
    ("tags", Val.arr [Val.str "React", Val.str "API"]),
    ("url", Val.null), ("repo", Val.null)]]

/-- `for p in sample: create_document("portfolioproject", p)` — the seed
endpoint's sequential inserts; the first store exception aborts the loop,
leaving the earlier inserts in place. -/
def createAll (ds : List Doc) (db : DB) : Except String DB :=
  match ds with
  | [] => Except.ok db
  | d :: rest =>
      match create_document "portfolioproject" d db with
      | Except.error e => Except.error e
      | Except.ok (_, db') => createAll rest db'

/-- Request body of `POST /api/seed` (`SeedRequest` in main.py). -/
structure SeedRequest where
  with_demo : Bool := true
  deriving Repr, DecidableEq

/-- Result of `POST /api/seed` on the wire: `{ok: true}` or the structured
`HTTPException(500)` raised by the handler's `except` branch. -/
inductive SeedResult where
  | ok
  | serverError (detail : String)
  deriving Repr, DecidableEq

/-- `POST /api/seed` (`seed_content` in main.py): when `with_demo`, insert the
demo profile if the profile collection is empty and the three demo projects if
the project collection is empty; any store exception is caught and re-raised
as `HTTPException(500)`, keeping whatever writes already landed. -/
def seed_content (req : SeedRequest) (db : DB) : SeedResult × DB :=
  if req.with_demo then
    match count_documents "portfolioprofile" db with
    | Except.error e => (SeedResult.serverError e, db)
    | Except.ok np =>
        let step1 : Except String DB :=
          if np = 0 then
            match create_document "portfolioprofile" seedProfileDoc db with
            | Except.error e => Except.error e
            | Except.ok (_, db') => Except.ok db'
          else Except.ok db
        match step1 with
        | Except.error e => (SeedResult.serverError e, db)
        | Except.ok db1 =>
            match count_documents "portfolioproject" db1 with
            | Except.error e => (SeedResult.serverError e, db1)
            | Except.ok nj =>
                if nj = 0 then
                  match createAll seedProjectDocs db1 with
                  | Except.error e => (SeedResult.serverError e, db1)
                  | Except.ok db2 => (SeedResult.ok, db2)
                else (SeedResult.ok, db1)
  else (SeedResult.ok, db)

/-- `GET /api/profile` (`get_profile` in main.py): fetch at most one document
from `portfolioprofile`; return `None` when there is none, otherwise drop the
`_id` field and re-validate through `PortfolioProfile(**doc)`.  The handler
has no try/except, so a store exception or a `ValidationError` escapes it
uncaught (`Except.error`). -/
def get_profile (db : DB) : Except String (Option PortfolioProfile) :=
  match get_documents "portfolioprofile" (some 1) db with
  | Except.error e => Except.error e
  | Except.ok [] => Except.ok none
  | Except.ok (d :: _) =>
      match validatePortfolioProfile (eraseId d) with
      | none => Except.error "ValidationError"
      | some p => Except.ok (some p)

/-- `PortfolioProject(**d)` applied to every fetched document in order
(the normalization loop of `list_projects`); the first `ValidationError`
aborts the loop. -/
def validateProjects (ds : List Doc) : Except String (List PortfolioProject) :=
  match ds with
  | [] => Except.ok []
  | d :: rest =>
      match validatePortfolioProject (eraseId d) with
      | none => Except.error "ValidationError"
      | some p =>
          match validateProjects rest with
          | Except.error e => Except.error e
          | Except.ok ps => Except.ok (p :: ps)

/-- `GET /api/projects` (`list_projects` in main.py): fetch every document of
`portfolioproject`, drop `_id` from each and re-validate through
`PortfolioProject(**d)`.  No try/except: store exceptions and validation
errors escape the handler uncaught. -/
def list_projects (db : DB) : Except String (List PortfolioProject) :=
  match get_documents "portfolioproject" none db with
  | Except.error e => Except.error e
  | Except.ok items => validateProjects items

/-- Modelled from the spec: the `db` handle exported by the missing
`database.py` as the `/test` endpoint observes it: the database name
attribute (`getattr(db, "name", ...)`) and the outcome of
`list_collection_names()`, which may raise. -/
structure DbHandle where
  name : Option String
  collectionsResult : Except String (List String)

/-- Modelled from the spec: the process environment of `/test` — the
`DATABASE_URL` variable and the optional `db` handle (§6: absence of the
connection string must leave the process able to answer `/test` with degraded
status, so `database.py` yields no handle then). -/
structure TestEnv where
  databaseUrl : Option String
  db : Option DbHandle

/-- The status object returned by `GET /test` (main.py). -/
structure TestStatus where
  backend : String
  database : String
  database_url : String
  database_name : String
  connection_status : String
  collections : List String
  deriving Repr, DecidableEq

/-- `GET /test` (`test_database` in main.py): build the degraded default
status, then fill in availability fields when the handle exists; the
`list_collection_names()` call is guarded by its own try/except, so a failure
there only downgrades the `database` field.  (The outer try/except of the
source guards code that cannot raise, so the handler is total.) -/
def test_database (env : TestEnv) : TestStatus :=
  let status : TestStatus :=
    { backend := "✅ Running", database := "❌ Not Available",
      database_url := "❌ Not Set", database_name := "❌ Not Set",
      connection_status := "Not Connected", collections := [] }
  match env.db with
  | none => status
  | some h =>
      let status1 :=
        { status with
            database := "✅ Available",
            database_url :=
              if env.databaseUrl.getD "" ≠ "" then "✅ Set" else "❌ Not Set",
            database_name := h.name.getD "✅ Connected",
            connection_status := "Connected" }
      match h.collectionsResult with
      | Except.ok names =>
          { status1 with collections := names.take 10,
                         database := "✅ Connected & Working" }
      | Except.error e =>
          { status1 with
              database := "⚠️ Connected but Error: " ++ e.take 80 }

/-! ## Theorems -/

/-- The generated identifiers of the store model are never empty. -/
theorem oid_ne_empty (t : String) : "oid" ++ t ≠ "" := by
  intro h
  have h2 : ("oid" ++ t).data = "".data := congrArg String.data h
  rw [String.data_append] at h2
  simp at h2

/-- C1: every `POST /api/contact` request whose body is a valid
`ContactMessage` (name present, syntactically valid email, message length in
[3, 5000]) returns `{ok: true}` with a non-empty string identifier, and one
contact record is created. -/
theorem submit_contact_valid_ok (body : Doc) (db : DB) (m : ContactMessage)
    (hm : parseContactMessage body = some m) (hf : db.failing = false) :
    ∃ id db', submit_contact body db = (ContactResult.ok id, db') ∧ id ≠ "" ∧
      db'.contactmessage.length = db.contactmessage.length + 1 := by
  refine ⟨"oid" ++ toString db.nextId,
    { db.insert "contactmessage"
        (("_id", Val.str ("oid" ++ toString db.nextId)) :: m.toDoc) with
      nextId := db.nextId + 1 },
    ?_, oid_ne_empty _, ?_⟩
  · simp [submit_contact, hm, create_document, hf]
  · simp [DB.insert]

/-- Witness for C1 at a concrete valid payload and an empty, working store. -/
theorem submit_contact_valid_ok_witness :
    ∃ id db', submit_contact
        [("name", Val.str "Ada"), ("email", Val.str "ada@example.com"),
         ("message", Val.str "Hello there")]
        ⟨[], [], [], 0, false⟩ = (ContactResult.ok id, db') ∧ id ≠ "" ∧
      db'.contactmessage.length = ([] : List Doc).length + 1 :=
  submit_contact_valid_ok _ _
    { name := "Ada", email := "ada@example.com", message := "Hello there" }
    (by decide) rfl

/-- C2: every `POST /api/contact` request whose body fails `ContactMessage`
validation (in particular message length 0, 1, or 2, or a syntactically
invalid email) is rejected with a client error before any store operation,
leaving the database state unchanged. -/
theorem submit_contact_invalid_rejected (body : Doc) (db : DB)
    (h : parseContactMessage body = none) :
    submit_contact body db = (ContactResult.clientError, db) := by
  simp [submit_contact, h]

/-- Witness for C2 at a concrete payload with a two-character message. -/
theorem submit_contact_invalid_rejected_witness :
    submit_contact
        [("name", Val.str "Ada"), ("email", Val.str "ada@example.com"),
         ("message", Val.str "ab")]
        ⟨[], [], [], 0, false⟩ =
      (ContactResult.clientError, ⟨[], [], [], 0, false⟩) :=
  submit_contact_invalid_rejected _ _ (by decide)

/-- C9: `POST /api/seed` with `with_demo = false` performs no store operation
at all, leaves the whole database state unchanged, and returns `{ok: true}`. -/
theorem seed_no_demo_noop (db : DB) :
    seed_content ⟨false⟩ db = (SeedResult.ok, db) := rfl

/-- C6 counterexample: with the store failing, `GET /api/profile` does not
return a structured server error; the store exception escapes the handler
uncaught (the handler has no try/except), contradicting the claim that no
exception crosses the HTTP boundary unhandled on every endpoint. -/
theorem get_profile_uncaught_store_error :
    get_profile ⟨[], [], [], 0, true⟩ = Except.error "store failure" := rfl

/-- C6 amended: on store failure the write handlers (`POST /api/contact`,
`POST /api/seed`) catch the exception and return a structured 500 error, but
the read handlers (`GET /api/profile`, `GET /api/projects`) let the store
exception escape uncaught. -/
theorem store_failure_handling (db : DB) (body : Doc) (m : ContactMessage)
    (hf : db.failing = true) (hm : parseContactMessage body = some m) :
    submit_contact body db = (ContactResult.serverError "store failure", db) ∧
    seed_content ⟨true⟩ db = (SeedResult.serverError "store failure", db) ∧
    get_profile db = Except.error "store failure" ∧
    list_projects db = Except.error "store failure" := by
  refine ⟨?_, ?_, ?_, ?_⟩ <;>
    simp [submit_contact, hm, create_document, hf, seed_content,
          count_documents, get_profile, get_documents, list_projects]

/-- Witness for the amended C6 at a concrete failing store and valid body. -/
theorem store_failure_handling_witness :
    submit_contact
        [("name", Val.str "Ada"), ("email", Val.str "ada@example.com"),
         ("message", Val.str "Hello there")] ⟨[], [], [], 0, true⟩ =
      (ContactResult.serverError "store failure", ⟨[], [], [], 0, true⟩) ∧
    seed_content ⟨true⟩ ⟨[], [], [], 0, true⟩ =
      (SeedResult.serverError "store failure", ⟨[], [], [], 0, true⟩) ∧
    get_profile ⟨[], [], [], 0, true⟩ = Except.error "store failure" ∧
    list_projects ⟨[], [], [], 0, true⟩ = Except.error "store failure" :=
  store_failure_handling _ _
    { name := "Ada", email := "ada@example.com", message := "Hello there" }
    rfl (by decide)

/-- C3: starting from empty profile and project collections on a working
store, two successive `POST /api/seed` calls with `with_demo = true` leave
exactly one profile record and exactly three project records; the second call
changes nothing (its emptiness checks see non-empty collections). -/
theorem seed_twice_idempotent (db0 : DB) (hf : db0.failing = false)
    (hp : db0.portfolioprofile = []) (hj : db0.portfolioproject = []) :
    (seed_content ⟨true⟩ (seed_content ⟨true⟩ db0).2).2.portfolioprofile.length = 1 ∧
    (seed_content ⟨true⟩ (seed_content ⟨true⟩ db0).2).2.portfolioproject.length = 3 ∧
    (seed_content ⟨true⟩ (seed_content ⟨true⟩ db0).2).2 = (seed_content ⟨true⟩ db0).2 := by
  obtain ⟨pp, pj, cm, nid, fl⟩ := db0
  simp only at hf hp hj
  subst hf hp hj
  exact ⟨rfl, rfl, rfl⟩

/-- Witness for C3 from the concrete empty database state. -/
theorem seed_twice_idempotent_witness :
    (seed_content ⟨true⟩ (seed_content ⟨true⟩ ⟨[], [], [], 0, false⟩).2).2.portfolioprofile.length = 1 ∧
    (seed_content ⟨true⟩ (seed_content ⟨true⟩ ⟨[], [], [], 0, false⟩).2).2.portfolioproject.length = 3 ∧
    (seed_content ⟨true⟩ (seed_content ⟨true⟩ ⟨[], [], [], 0, false⟩).2).2 = (seed_content ⟨true⟩ ⟨[], [], [], 0, false⟩).2 :=
  seed_twice_idempotent ⟨[], [], [], 0, false⟩ rfl rfl rfl

/-- A serialized `PortfolioProfile` response never contains the
store-internal `_id` field. -/
theorem profile_toDoc_no_id (p : PortfolioProfile) :
    (PortfolioProfile.toDoc p).find "_id" = none := by
  simp [PortfolioProfile.toDoc, Doc.find]

/-- A serialized `PortfolioProject` response never contains the
store-internal `_id` field. -/
theorem project_toDoc_no_id (p : PortfolioProject) :
    (PortfolioProject.toDoc p).find "_id" = none := by
  simp [PortfolioProject.toDoc, Doc.find]

/-- C4: on a working store, `GET /api/profile` returns null when the profile
collection is empty, and otherwise returns the single profile validated from
the first stored record, whose serialization has no store identifier field. -/
theorem get_profile_spec (db : DB) (hf : db.failing = false) :
    (db.portfolioprofile = [] → get_profile db = Except.ok none) ∧
    (∀ d rest p, db.portfolioprofile = d :: rest →
      validatePortfolioProfile (eraseId d) = some p →
      get_profile db = Except.ok (some p) ∧
        (PortfolioProfile.toDoc p).find "_id" = none) := by
  constructor
  · intro h
    simp [get_profile, get_documents, hf, DB.coll, h]
  · intro d rest p hd hv
    refine ⟨?_, profile_toDoc_no_id p⟩
    simp [get_profile, get_documents, hf, DB.coll, hd, hv]

/-- Witness for C4 at a database holding one valid stored profile record. -/
theorem get_profile_spec_witness :
    get_profile ⟨[[("_id", Val.str "oid0"), ("name", Val.str "Ada"),
                   ("role", Val.str "Dev"), ("bio", Val.str "Hi")]],
                 [], [], 1, false⟩ =
      Except.ok (some { name := "Ada", role := "Dev", bio := "Hi" }) ∧
    (PortfolioProfile.toDoc { name := "Ada", role := "Dev", bio := "Hi" }).find "_id" = none :=
  (get_profile_spec _ rfl).2
    [("_id", Val.str "oid0"), ("name", Val.str "Ada"),
     ("role", Val.str "Dev"), ("bio", Val.str "Hi")] [] _ rfl (by decide)

/-- Validating a list of project documents preserves its length. -/
theorem validateProjects_length (ds : List Doc) (ps : List PortfolioProject)
    (h : validateProjects ds = Except.ok ps) : ps.length = ds.length := by
  induction ds generalizing ps with
  | nil =>
      simp [validateProjects] at h
      subst h; rfl
  | cons d rest ih =>
      unfold validateProjects at h
      cases hv : validatePortfolioProject (eraseId d) with
      | none => rw [hv] at h; exact absurd h (by simp)
      | some p =>
          rw [hv] at h
          cases hr : validateProjects rest with
          | error e => rw [hr] at h; exact absurd h (by simp)
          | ok qs =>
              rw [hr] at h
              obtain rfl : p :: qs = ps := by simpa using h
              simp [ih qs hr]

/-- C5: on a working store, `GET /api/projects` returns `[]` when no project
records are stored, and otherwise an array of exactly one element per stored
record, each element's serialization free of the store identifier field. -/
theorem list_projects_spec (db : DB) (hf : db.failing = false) :
    (db.portfolioproject = [] → list_projects db = Except.ok []) ∧
    (∀ ps, validateProjects db.portfolioproject = Except.ok ps →
      list_projects db = Except.ok ps ∧
      ps.length = db.portfolioproject.length ∧
      ∀ p ∈ ps, (PortfolioProject.toDoc p).find "_id" = none) := by
  constructor
  · intro h
    simp [list_projects, get_documents, hf, DB.coll, h, validateProjects]
  · intro ps hv
    refine ⟨?_, validateProjects_length _ _ hv, fun p _ => project_toDoc_no_id p⟩
    simp [list_projects, get_documents, hf, DB.coll, hv]

/-- Witness for C5 at a database holding two valid stored project records. -/
theorem list_projects_spec_witness :
    list_projects ⟨[],
        [[("_id", Val.str "oid0"), ("title", Val.str "A"),
          ("description", Val.str "da")],
         [("_id", Val.str "oid1"), ("title", Val.str "B"),
          ("description", Val.str "db")]],
        [], 2, false⟩ =
      Except.ok [{ title := "A", description := "da" },
                 { title := "B", description := "db" }] ∧
    ([{ title := "A", description := "da" },
      { title := "B", description := "db" }] : List PortfolioProject).length =
      ([[("_id", Val.str "oid0"), ("title", Val.str "A"),
         ("description", Val.str "da")],
        [("_id", Val.str "oid1"), ("title", Val.str "B"),
         ("description", Val.str "db")]] : List Doc).length ∧
    ∀ p ∈ ([{ title := "A", description := "da" },
            { title := "B", description := "db" }] : List PortfolioProject),
      (PortfolioProject.toDoc p).find "_id" = none :=
  (list_projects_spec _ rfl).2 _ rfl

/-- C7: `GET /test` always returns a status object (the handler is a total
function of the environment); when no database connection string is
configured — so `database.py` yields no handle — the response carries
`database_url = "❌ Not Set"` and `connection_status = "Not Connected"`, and
in every case at most 10 collection names are reported. -/
theorem test_database_spec (env : TestEnv)
    (hwf : env.databaseUrl = none → env.db = none) :
    (test_database env).collections.length ≤ 10 ∧
    (env.databaseUrl = none →
      (test_database env).database_url = "❌ Not Set" ∧
      (test_database env).connection_status = "Not Connected") := by
  obtain ⟨u, hd⟩ := env
  cases hd with
  | none =>
      constructor
      · simp [test_database]
      · intro _; exact ⟨rfl, rfl⟩
  | some h =>
      constructor
      · cases hc : h.collectionsResult with
        | ok names =>
            simp [test_database, hc, List.length_take]
        | error e =>
            simp [test_database, hc]
      · intro hu
        exact absurd (hwf hu) (by simp)

/-- Witness for C7 at the environment with no connection string and no
database handle. -/
theorem test_database_spec_witness :
    (test_database ⟨none, none⟩).collections.length ≤ 10 ∧
    ((none : Option String) = none →
      (test_database ⟨none, none⟩).database_url = "❌ Not Set" ∧
      (test_database ⟨none, none⟩).connection_status = "Not Connected") :=
  test_database_spec ⟨none, none⟩ (fun _ => rfl)

/-- C8 counterexample: the schema layer accepts a profile whose `name` is the
empty string (`name: str` carries no `min_length` constraint in schemas.py),
so the claim that an empty name is rejected — and that every accepted profile
has a non-empty name — is false. -/
theorem profile_empty_name_accepted :
    validatePortfolioProfile
        [("name", Val.str ""), ("role", Val.str "Web Developer"),
         ("bio", Val.str "Hi there")] =
      some { name := "", role := "Web Developer", bio := "Hi there" } := rfl

/-- C8 amended: every profile accepted by schema validation has a string in
its `name` field taken from the document, and a document lacking the `name`
field is rejected; the name string may be empty. -/
theorem profile_name_presence (d : Doc) :
    (∀ p, validatePortfolioProfile d = some p →
      d.find "name" = some (Val.str p.name)) ∧
    (d.find "name" = none → validatePortfolioProfile d = none) := by
  constructor
  · intro p hp
    unfold validatePortfolioProfile at hp
    split at hp
    · rename_i n r b hn hr hb
      split at hp
      · obtain rfl := Option.some.inj hp
        exact hn
      all_goals simp at hp
    all_goals simp at hp
  · intro hn
    unfold validatePortfolioProfile
    split
    · rename_i hn' _ _
      rw [hn] at hn'
      exact absurd hn' (by simp)
    all_goals rfl

/-- Witness for the amended C8: a document without a `name` field is
rejected by profile validation. -/
theorem profile_name_presence_witness :
    validatePortfolioProfile
        [("role", Val.str "Dev"), ("bio", Val.str "Hi")] = none :=
  (profile_name_presence
      [("role", Val.str "Dev"), ("bio", Val.str "Hi")]).2 rfl

/-- A profile document missing any of the required fields `name`, `role`,
`bio` fails `PortfolioProfile` validation. -/
theorem validateProfile_missing (d : Doc)
    (h : d.find "name" = none ∨ d.find "role" = none ∨ d.find "bio" = none) :
    validatePortfolioProfile d = none := by
  unfold validatePortfolioProfile
  split
  · rename_i hn hr hb
    rcases h with h | h | h <;> simp_all
  all_goals rfl

/-- C10: `GET /api/profile` re-validates the stored document on every read:
on a working store whose first profile document (after dropping `_id`) lacks
one of the required fields `name`, `role`, or `bio`, the handler raises a
validation error instead of returning null or a partial object. -/
theorem get_profile_missing_field_errors (db : DB) (d : Doc)
    (rest : List Doc) (hf : db.failing = false)
    (hd : db.portfolioprofile = d :: rest)
    (hmiss : (eraseId d).find "name" = none ∨
             (eraseId d).find "role" = none ∨
             (eraseId d).find "bio" = none) :
    get_profile db = Except.error "ValidationError" := by
  simp [get_profile, get_documents, hf, DB.coll, hd,
        validateProfile_missing _ hmiss]

/-- Witness for C10 at a stored profile document lacking `role` and `bio`. -/
theorem get_profile_missing_field_errors_witness :
    get_profile ⟨[[("_id", Val.str "oid0"), ("name", Val.str "Ada")]],
                 [], [], 1, false⟩ = Except.error "ValidationError" :=
  get_profile_missing_field_errors _
    [("_id", Val.str "oid0"), ("name", Val.str "Ada")] [] rfl rfl
    (Or.inr (Or.inl rfl))
